import Mathlib

/-!
Shallow embedding of the AURA ambient-care decision engine.

Sources embedded here:
- src/src/risk.ts: clamp, computeRisks, urgencyBand, buildExplanation,
  parseLLMResponse, createLLMController (request / forceRequest / stopAll /
  execute / abortInflight / clearTimer).
- src/src/types.ts (main module): computeContextSignature, maybeRequestLLM,
  forceRefreshLLM and the module-level gate state.
- src/unnamed/part_000 (intervention module): selectIntervention,
  buildIntervention.
- baseline module (in risk.ts bundle): DEFAULT_BASELINE, defaultState,
  computeDeviations, isNightHour.

Numbers are modelled as rationals; JS float arithmetic is modelled exactly.
Math.sqrt (used only inside computeDeviations) is a host primitive and is
modelled as an explicit function parameter. JSON.parse is a host primitive and
is modelled by its outcome, an Except value carrying either the parsed JSON
tree or a parse failure. The asynchronous controller is modelled as a state
machine: each closure-visible mutation step of createLLMController becomes one
transition of ctrlStep, and callback deliveries are recorded in the step
output.
-/

namespace Aura

/-- Urgency band classification, from the UrgencyBand union type. -/
inductive UrgencyBand where
  | Low
  | Medium
  | High
deriving DecidableEq, Repr

/-- ResidentBaseline record from types.ts. -/
structure ResidentBaseline where
  mobilityMean : ℚ
  mobilityVar : ℚ
  restlessnessMean : ℚ
  restlessnessVar : ℚ
  speechMean : ℚ
  speechVar : ℚ
  socialMean : ℚ
  socialVar : ℚ
  sleepStart : ℚ
  sleepEnd : ℚ
deriving DecidableEq

/-- CurrentState record from types.ts. -/
structure CurrentState where
  timeOfDay : ℚ
  mobility : ℚ
  restlessness : ℚ
  speechDrift : ℚ
  socialIsolation : ℚ
  useWearables : Bool
  heartRate : ℚ
  spO2 : ℚ
  staffLoad : ℚ
deriving DecidableEq

/-- Deviations record from types.ts. -/
structure Deviations where
  mobility : ℚ
  restlessness : ℚ
  speech : ℚ
  social : ℚ
deriving DecidableEq

/-- RiskScores record from types.ts. -/
structure RiskScores where
  fall : ℚ
  cognitive : ℚ
  loneliness : ℚ
  overall : ℚ
deriving DecidableEq

/-- clamp from risk.ts; the callers always use the default bounds lo = 0,
hi = 100, so the bounds are fixed here. -/
def clamp (v : ℚ) : ℚ :=
  max 0 (min 100 v)

/-- Truncation toward zero, the rounding JS applies inside the % operator. -/
def jsTrunc (q : ℚ) : ℤ :=
  if 0 ≤ q then Rat.floor q else Rat.ceil q

/-- The JS % operator on numbers (fmod, sign of the dividend). -/
def jsMod (a b : ℚ) : ℚ :=
  a - b * (jsTrunc (a / b) : ℚ)

/-- DEFAULT_BASELINE from the baseline module. -/
def DEFAULT_BASELINE : ResidentBaseline :=
  { mobilityMean := 70
    mobilityVar := 100
    restlessnessMean := 25
    restlessnessVar := 64
    speechMean := 20
    speechVar := 49
    socialMean := 30
    socialVar := 81
    sleepStart := 22
    sleepEnd := 6 }

/-- defaultState from the baseline module. -/
def defaultState : CurrentState :=
  { timeOfDay := 14
    mobility := 70
    restlessness := 25
    speechDrift := 20
    socialIsolation := 30
    useWearables := false
    heartRate := 72
    spO2 := 97
    staffLoad := 40 }

/-- isNightHour from the baseline module. -/
def isNightHour (hour : ℚ) (baseline : ResidentBaseline) : Bool :=
  let h := jsMod (jsMod hour 24 + 24) 24
  if baseline.sleepStart > baseline.sleepEnd then
    decide (h ≥ baseline.sleepStart) || decide (h < baseline.sleepEnd)
  else
    decide (h ≥ baseline.sleepStart) && decide (h < baseline.sleepEnd)

/-- computeDeviations from the baseline module. Math.sqrt is a host float
primitive; it is modelled by the explicit parameter sqrt. EPS = 1. -/
def computeDeviations (sqrt : ℚ → ℚ) (baseline : ResidentBaseline)
    (state : CurrentState) : Deviations :=
  let norm := fun (current mean variance : ℚ) =>
    (current - mean) / sqrt (variance + 1)
  { mobility := -norm state.mobility baseline.mobilityMean baseline.mobilityVar
    restlessness :=
      norm state.restlessness baseline.restlessnessMean baseline.restlessnessVar
    speech := norm state.speechDrift baseline.speechMean baseline.speechVar
    social := norm state.socialIsolation baseline.socialMean baseline.socialVar }

/-- computeRisks from risk.ts. The mutating accumulation of each score in the
source is written as the corresponding sum, in source order; conditional
increments become ite terms. -/
def computeRisks (state : CurrentState) (deviations : Deviations)
    (baseline : ResidentBaseline) : RiskScores :=
  let night := isNightHour state.timeOfDay baseline
  let fall := clamp <|
    (100 - state.mobility) * 0.35
    + state.restlessness * 0.20
    + (if night then 18 else 0)
    + max 0 deviations.mobility * 5
    + max 0 deviations.restlessness * 3
    + (if state.useWearables then
        (if state.heartRate > 110 then (state.heartRate - 110) * 0.5 else 0)
        + (if state.spO2 < 92 then (92 - state.spO2) * 3 else 0)
      else 0)
  let cognitive := clamp <|
    state.speechDrift * 0.45
    + (if night then state.restlessness * 0.25 else 0)
    + max 0 deviations.speech * 4
  let activityProxy := state.mobility * 0.3 + (100 - state.restlessness) * 0.2
  let loneliness := clamp <|
    state.socialIsolation * 0.50
    + max 0 (50 - activityProxy) * 0.3
    + max 0 deviations.social * 4
  let overall := clamp (fall * 0.40 + cognitive * 0.30 + loneliness * 0.30)
  { fall := fall, cognitive := cognitive, loneliness := loneliness,
    overall := overall }

/-- urgencyBand from risk.ts. -/
def urgencyBand (score : ℚ) : UrgencyBand :=
  if score < 40 then .Low
  else if score < 70 then .Medium
  else .High

/-- One entry of ExplanationOutput.topFactors. -/
structure Factor where
  factor : String
  weight : ℚ
deriving DecidableEq

/-- ExplanationOutput record from types.ts. -/
structure ExplanationOutput where
  topFactors : List Factor
  narrative : String
deriving DecidableEq

/-- The ordered checklist of factor rules in buildExplanation: each source
push becomes a singleton appended when its guard holds, in source order. -/
def factorChecklist (state : CurrentState) (deviations : Deviations)
    (night : Bool) : List Factor :=
  (if state.mobility < 50 then
    [⟨"Reduced mobility stability", (100 - state.mobility) / 100⟩] else [])
  ++ (if state.restlessness > 40 then
    [⟨"Elevated restlessness", state.restlessness / 100⟩] else [])
  ++ (if night then [⟨"Nighttime hours", 0.6⟩] else [])
  ++ (if state.speechDrift > 35 then
    [⟨"Speech clarity change", state.speechDrift / 100⟩] else [])
  ++ (if state.socialIsolation > 45 then
    [⟨"Social isolation trend", state.socialIsolation / 100⟩] else [])
  ++ (if state.staffLoad > 60 then
    [⟨"High staff workload", state.staffLoad / 120⟩] else [])
  ++ (if state.useWearables && decide (state.heartRate > 100) then
    [⟨"Elevated heart rate", 0.5⟩] else [])
  ++ (if state.useWearables && decide (state.spO2 < 93) then
    [⟨"Low blood oxygen", 0.7⟩] else [])
  ++ (if deviations.mobility > 1.5 then
    [⟨"Mobility below personal baseline", 0.55⟩] else [])
  ++ (if deviations.restlessness > 1.5 then
    [⟨"Restlessness above personal baseline", 0.45⟩] else [])

/-- The default factor pushed when no checklist rule triggers. -/
def defaultFactor : Factor :=
  ⟨"All signals within comfortable range", 0.1⟩

/-- The JS comparator (a, b) => b.weight - a.weight keeps a before b exactly
when b.weight - a.weight is not positive; Array.prototype.sort is stable, so
the sort is a stable merge sort under this Boolean order. -/
def weightGe (a b : Factor) : Bool :=
  decide (b.weight ≤ a.weight)

/-- buildExplanation from risk.ts. -/
def buildExplanation (state : CurrentState) (deviations : Deviations)
    (risks : RiskScores) (baseline : ResidentBaseline) : ExplanationOutput :=
  let night := isNightHour state.timeOfDay baseline
  let factors := factorChecklist state deviations night
  let factors := if factors = [] then [defaultFactor] else factors
  let sorted := factors.mergeSort weightGe
  let top3 := sorted.take 3
  let band := urgencyBand risks.overall
  let narrative :=
    match band with
    | .Low =>
        "The resident\x27s current state is within a comfortable range. "
          ++ "No significant deviations from their personal baseline have been detected."
    | .Medium =>
        let topNames := String.intercalate " and "
          (top3.map (fun f => f.factor.toLower))
        "Moderate attention suggested. The system has noticed " ++ topNames
          ++ ". These patterns are being monitored to ensure the resident\x27s comfort and safety."
    | .High =>
        let topNames := String.intercalate ", "
          (top3.map (fun f => f.factor.toLower))
        "Elevated concern detected due to " ++ topNames
          ++ ". The system recommends timely support to ensure the resident\x27s wellbeing."
  { topFactors := top3, narrative := narrative }

/-- InterventionOutput record from types.ts; the 1 to 4 level is a Nat. -/
structure InterventionOutput where
  level : ℕ
  levelLabel : String
  residentMessage : Option String
  staffMessage : Option String
  environmentalCue : String
deriving DecidableEq

/-- Math.round: round half toward positive infinity. -/
def jsRound (q : ℚ) : ℤ :=
  Rat.floor (q + 0.5)

/-- String.prototype.padStart(2, v0v): pad on the left with zeros up to
length 2. -/
def padStart2 (s : String) : String :=
  if s.length < 2 then String.mk (List.replicate (2 - s.length) '0') ++ s
  else s

/-- The zero-padded HH:MM rendering of a fractional hour used by
buildIntervention. -/
def timeLabel (timeOfDay : ℚ) : String :=
  padStart2 (toString (Rat.floor timeOfDay))
    ++ ":" ++ padStart2 (toString (Rat.floor (jsMod timeOfDay 1 * 60)))

/-- buildIntervention from the intervention module. The switch has cases for
levels 1 to 4; the selector only ever passes these values, and the default
arm here is the case 1 arm. JS number rendering inside template strings is
modelled by toString on the rounded integer (all interpolated scores are
rounded in the source except the raw vitals in the level 4 message, where the
ambient rational rendering stands in for JS float printing). -/
def buildIntervention (level : ℕ) (state : CurrentState) (risks : RiskScores)
    (night : Bool) : InterventionOutput :=
  match level with
  | 2 =>
      let resMsg :=
        if risks.loneliness > risks.fall then
          "Good " ++ (if night then "evening" else "afternoon")
            ++ "! Your friend Martha mentioned she\x27d love to chat — would you like to give her a call?"
        else
          "Just a gentle reminder: take your time if you\x27re getting up. The path light is on for you."
      { level := 2
        levelLabel := "Gentle Prompt"
        residentMessage := some resMsg
        staffMessage := none
        environmentalCue :=
          if night then
            "Path lighting brightened slightly. Ambient tone gently raised."
          else
            "Room ambiance shifted to warmer tones to encourage settling." }
  | 3 =>
      let whyStaff :=
        if risks.fall ≥ 70 then
          "Fall risk elevated (" ++ toString (jsRound risks.fall)
            ++ "%) — resident mobility reduced, "
            ++ (if night then "nighttime" else "daytime")
            ++ " activity detected."
        else
          "Combined risk moderate-high (" ++ toString (jsRound risks.overall)
            ++ "%) — staff load high. Supportive check-in recommended."
      { level := 3
        levelLabel := "Staff Soft Alert"
        residentMessage :=
          some "You\x27re doing great. Someone will pop by shortly just to say hello."
        staffMessage :=
          some ("Soft alert at " ++ timeLabel state.timeOfDay ++ ": " ++ whyStaff)
        environmentalCue :=
          "Room lighting set to calm, reassuring level. Gentle chime played in staff station." }
  | 4 =>
      let whyEscalate :=
        if state.useWearables && decide (state.spO2 < 90) then
          "Vitals concern: SpO2 " ++ toString state.spO2 ++ "%, HR "
            ++ toString state.heartRate ++ " bpm. Immediate check recommended."
        else
          "Repeated high-risk pattern detected (fall " ++ toString (jsRound risks.fall)
            ++ "%, overall " ++ toString (jsRound risks.overall)
            ++ "%). Prompt attention needed."
      { level := 4
        levelLabel := "Escalate"
        residentMessage :=
          some "Help is on the way. You\x27re safe — just stay comfortable where you are."
        staffMessage :=
          some ("PRIORITY at " ++ timeLabel state.timeOfDay ++ ": " ++ whyEscalate)
        environmentalCue :=
          "Room lights fully on. Staff alert tone at station. Hallway indicator active." }
  | _ =>
      { level := 1
        levelLabel := "Ambient Cue"
        residentMessage := none
        staffMessage := none
        environmentalCue :=
          if night then
            "Soft warm floor-path lighting activated along bedroom → bathroom route. Gentle calming soundscape maintained."
          else
            "Room lighting adjusted to comfortable daytime level. Background music at low volume." }

/-- selectIntervention from the intervention module. -/
def selectIntervention (state : CurrentState) (risks : RiskScores)
    (recentHighCount : ℕ) : InterventionOutput :=
  let night := isNightHour state.timeOfDay DEFAULT_BASELINE
  let fallBand := urgencyBand risks.fall
  let cognitiveBand := urgencyBand risks.cognitive
  let lonelinessBand := urgencyBand risks.loneliness
  let overallBand := urgencyBand risks.overall
  let vitalsAbnormal :=
    state.useWearables && (decide (state.heartRate > 120) || decide (state.spO2 < 90))
  let level : ℕ :=
    if (overallBand = .High ∧ vitalsAbnormal) ∨ recentHighCount ≥ 3 then 4
    else if fallBand = .High ∨ (overallBand = .Medium ∧ state.staffLoad > 65) then 3
    else if fallBand = .Medium ∨ lonelinessBand = .Medium ∨ lonelinessBand = .High
        ∨ cognitiveBand = .Medium then 2
    else if night ∧ (fallBand = .Low ∨ fallBand = .Medium) then 1
    else 1
  buildIntervention level state risks night

/-- LLMGeneratedMessages record from types.ts; string-or-null fields are
options. -/
structure LLMGeneratedMessages where
  residentMessage : Option String
  staffMessage : Option String
  explanationText : String
deriving DecidableEq

/-- A JSON value, the possible results of the host JSON.parse. -/
inductive JValue where
  | null
  | bool (b : Bool)
  | num (q : ℚ)
  | str (s : String)
  | arr (elems : List JValue)
  | obj (fields : List (String × JValue))

/-- JS property read on a parsed JSON value: the first binding of the key in
an object, undefined (none) otherwise. -/
def getField (v : JValue) (key : String) : Option JValue :=
  match v with
  | .obj fields => (fields.find? (fun p => p.1 == key)).map (fun p => p.2)
  | _ => none

/-- String.prototype.slice(0, n): the first n characters. -/
def strSlice (s : String) (n : ℕ) : String :=
  (s.toList.take n).asString

/-- The fixed fallback sentence for a missing or non-string explanationText. -/
def defaultExplanationText : String :=
  "The system is monitoring the resident based on current observations."

/-- parseLLMResponse from risk.ts. The code-fence stripping and JSON.parse of
the raw string are host primitives; they are modelled by their outcome, an
Except value. The source has no try block around JSON.parse, so a parse
failure propagates to the caller unchanged; only a successfully parsed value
reaches the field extraction below, which mirrors the source literally. -/
def parseLLMResponse (parsed : Except String JValue) :
    Except String LLMGeneratedMessages :=
  match parsed with
  | .error e => .error e
  | .ok v =>
      .ok
        { residentMessage :=
            match getField v "residentMessage" with
            | some (.str s) => some (strSlice s 200)
            | _ => none
          staffMessage :=
            match getField v "staffMessage" with
            | some (.str s) => some (strSlice s 300)
            | _ => none
          explanationText :=
            match getField v "explanationText" with
            | some (.str s) => strSlice s 500
            | _ => defaultExplanationText }

/-- LLMStatus union type from the controller module. -/
inductive LLMStatus where
  | idle
  | generating
  | error
deriving DecidableEq, Repr

/-- The closure state of createLLMController. timerId and abortCtrl are the
two optional resource handles; cancellation tokens that have been aborted are
collected in aborted (a token t is aborted exactly when the abort controller
t had abort() called on it); fresh supplies identities for new timers and
tokens. -/
structure Ctrl where
  timer : Option ℕ
  inflight : Option ℕ
  aborted : List ℕ
  status : LLMStatus
  calls : ℕ
  fresh : ℕ
deriving DecidableEq

/-- clearTimer from createLLMController. -/
def clearTimer (c : Ctrl) : Ctrl :=
  { c with timer := none }

/-- abortInflight from createLLMController: abort the current token, if any,
and drop the handle. -/
def abortInflight (c : Ctrl) : Ctrl :=
  match c.inflight with
  | none => c
  | some t => { c with inflight := none, aborted := t :: c.aborted }

/-- The synchronous prefix of execute: abort any predecessor, allocate a new
AbortController, set status to generating. The network call is issued with
the new token. -/
def executeStart (c : Ctrl) : Ctrl :=
  let c1 := abortInflight c
  { c1 with
    inflight := some c1.fresh
    fresh := c1.fresh + 1
    status := .generating }

/-- Observable events of the controller: the public methods, the firing of a
live debounce timer, and the two ways the awaited network call can come back
for a given token (success, or failure carrying whether the failure is an
AbortError). -/
inductive Ev where
  | request
  | forceRequest
  | timerFire (tid : ℕ)
  | stopAll
  | completeOk (tok : ℕ)
  | completeErr (tok : ℕ) (abortErr : Bool)

/-- What one transition delivers to the outside: whether a network call was
started, and whether onResult or onError was invoked. -/
structure StepOut where
  started : Bool
  resultDelivered : Bool
  errorDelivered : Bool
deriving DecidableEq

/-- One transition of the controller, from createLLMController:
- request: clearTimer then start a fresh debounce timer;
- forceRequest: clearTimer then execute immediately;
- timerFire tid: a setTimeout callback runs only if tid is still the live
  timer (clearTimeout prevents a cleared timer from firing); it nulls timerId
  and runs execute;
- stopAll: clearTimer, abortInflight, status idle;
- completeOk tok: the await in execute returned for token tok; the result is
  delivered, calls incremented and status set to idle only when that token
  was not aborted in the meantime;
- completeErr tok abortErr: the await threw; aborts are swallowed silently,
  any other failure sets status to error and delivers onError. -/
def ctrlStep (c : Ctrl) (e : Ev) : Ctrl × StepOut :=
  match e with
  | .request =>
      let c1 := clearTimer c
      ({ c1 with timer := some c1.fresh, fresh := c1.fresh + 1 },
        ⟨false, false, false⟩)
  | .forceRequest =>
      (executeStart (clearTimer c), ⟨true, false, false⟩)
  | .timerFire tid =>
      if c.timer = some tid then
        (executeStart { c with timer := none }, ⟨true, false, false⟩)
      else (c, ⟨false, false, false⟩)
  | .stopAll =>
      ({ abortInflight (clearTimer c) with status := .idle },
        ⟨false, false, false⟩)
  | .completeOk tok =>
      if tok ∈ c.aborted then (c, ⟨false, false, false⟩)
      else ({ c with calls := c.calls + 1, status := .idle },
        ⟨false, true, false⟩)
  | .completeErr tok abortErr =>
      if abortErr || decide (tok ∈ c.aborted) then (c, ⟨false, false, false⟩)
      else ({ c with status := .error }, ⟨false, false, true⟩)

/-- Run a sequence of controller events, keeping only the state. -/
def runCtrl (c : Ctrl) : List Ev → Ctrl
  | [] => c
  | e :: es => runCtrl (ctrlStep c e).1 es

/-- Number of network calls started along a sequence of events. -/
def traceStarts (c : Ctrl) : List Ev → ℕ
  | [] => 0
  | e :: es =>
      (if (ctrlStep c e).2.started then 1 else 0)
        + traceStarts (ctrlStep c e).1 es

/-- LLMConfig record from types.ts. -/
structure LLMConfig where
  apiKey : String
  baseUrl : String
  model : String
  enabled : Bool
deriving DecidableEq

/-- isLLMAvailable from the controller module. -/
def isLLMAvailable (config : LLMConfig) : Bool :=
  config.enabled && decide (config.apiKey.length > 0)

/-- TimelineEvent record from types.ts. -/
structure TimelineEvent where
  time : ℚ
  label : String
  urgency : UrgencyBand
  detail : String
deriving DecidableEq

/-- Rendering of an urgency band inside template strings. -/
def bandToString : UrgencyBand → String
  | .Low => "Low"
  | .Medium => "Medium"
  | .High => "High"

/-- computeContextSignature from the main module. -/
def computeContextSignature (intervention : InterventionOutput)
    (risks : RiskScores) (explanation : ExplanationOutput)
    (events : List TimelineEvent) : String :=
  let urgency := bandToString (urgencyBand risks.overall)
  let top2 := String.intercalate ","
    ((explanation.topFactors.take 2).map (fun f => f.factor))
  let lastSig := events.reverse.find? (fun e => !(e.urgency == .Low))
  let lastEventKey :=
    match lastSig with
    | some e => e.label ++ "|" ++ bandToString e.urgency
    | none => "none"
  toString intervention.level ++ "|" ++ urgency ++ "|" ++ top2
    ++ "|" ++ lastEventKey

/-- The module-level mutable state of the main module that the change-gate
reads and writes: the simulation lock, the enrichment configuration, the
stored signature, and the cached enrichment messages. -/
structure GateState where
  simRunning : Bool
  llmConfig : LLMConfig
  prevSignature : String
  lastLLMMessages : Option LLMGeneratedMessages
deriving DecidableEq

/-- maybeRequestLLM from the main module, paired with the controller state it
drives: the level-below-2 branch runs stopLLMWork (llm.stopAll) and clears
the cached enrichment; the changed-signature branch stores the signature and
calls llm.request. -/
def maybeRequestLLM (g : GateState) (ctrl : Ctrl)
    (intervention : InterventionOutput) (risks : RiskScores)
    (explanation : ExplanationOutput) (events : List TimelineEvent) :
    GateState × Ctrl :=
  if g.simRunning then (g, ctrl)
  else if !isLLMAvailable g.llmConfig then (g, ctrl)
  else if intervention.level < 2 then
    ({ g with lastLLMMessages := none }, (ctrlStep ctrl .stopAll).1)
  else
    let sig := computeContextSignature intervention risks explanation events
    if sig = g.prevSignature then (g, ctrl)
    else ({ g with prevSignature := sig }, (ctrlStep ctrl .request).1)

/-- forceRefreshLLM from the main module, over the cached outputs of the last
update: resets the stored signature to the empty string and calls
llm.forceRequest. -/
def forceRefreshLLM (g : GateState) (ctrl : Ctrl)
    (lastIntervention : Option InterventionOutput)
    (lastRisks : Option RiskScores)
    (lastExplanation : Option ExplanationOutput) : GateState × Ctrl :=
  if !isLLMAvailable g.llmConfig then (g, ctrl)
  else
    match lastIntervention, lastRisks, lastExplanation with
    | some i, some _, some _ =>
        if i.level < 2 then (g, ctrl)
        else ({ g with prevSignature := "" }, (ctrlStep ctrl .forceRequest).1)
    | _, _, _ => (g, ctrl)

/-- The fall formula as the specification states it: one sum of contribution
terms, with the wearables terms written through max. Used to compare the
source computation against the spec wording. -/
def fallSpec (state : CurrentState) (deviations : Deviations)
    (baseline : ResidentBaseline) : ℚ :=
  (100 - state.mobility) * 0.35
  + state.restlessness * 0.20
  + (if isNightHour state.timeOfDay baseline then 18 else 0)
  + max 0 deviations.mobility * 5
  + max 0 deviations.restlessness * 3
  + (if state.useWearables then
      max 0 (state.heartRate - 110) * 0.5 + max 0 (92 - state.spO2) * 3
    else 0)

section ClaimProofs

attribute [local semireducible] Rat.add Rat.mul Rat.sub Rat.inv Rat.ofScientific

theorem clamp_nonneg (v : ℚ) : 0 ≤ clamp v :=
  le_max_left 0 _

theorem clamp_le_hundred (v : ℚ) : clamp v ≤ 100 :=
  max_le (by norm_num) (min_le_left _ _)

/-- C9: urgencyBand is a total pure step function on every score: Low exactly
when score < 40, Medium exactly when 40 <= score < 70, High exactly when
70 <= score; 39.999 maps to Low, 40 to Medium, 69.999 to Medium, 70 to
High. -/
theorem urgencyBand_step_function :
    (∀ s : ℚ,
      (urgencyBand s = .Low ↔ s < 40)
      ∧ (urgencyBand s = .Medium ↔ 40 ≤ s ∧ s < 70)
      ∧ (urgencyBand s = .High ↔ 70 ≤ s))
    ∧ urgencyBand 39.999 = .Low
    ∧ urgencyBand 40 = .Medium
    ∧ urgencyBand 69.999 = .Medium
    ∧ urgencyBand 70 = .High := by
  refine ⟨fun s => ?_, by decide, by decide, by decide, by decide⟩
  unfold urgencyBand
  split_ifs with h1 h2
  · refine ⟨iff_of_true rfl h1, iff_of_false (by simp) ?_, iff_of_false (by simp) ?_⟩
    · rintro ⟨h, _⟩; linarith
    · intro h; linarith
  · refine ⟨iff_of_false (by simp) h1, iff_of_true rfl ⟨le_of_not_lt h1, h2⟩,
      iff_of_false (by simp) ?_⟩
    intro h; linarith
  · exact ⟨iff_of_false (by simp) h1, iff_of_false (by simp) (fun h => h2 h.2),
      iff_of_true rfl (le_of_not_lt h2)⟩

/-- C4: for every CurrentState, Deviations and ResidentBaseline, all four
fields of the RiskScores returned by computeRisks lie in the closed interval
from 0 to 100. -/
theorem computeRisks_bounded (state : CurrentState) (deviations : Deviations)
    (baseline : ResidentBaseline) :
    (0 ≤ (computeRisks state deviations baseline).fall
      ∧ (computeRisks state deviations baseline).fall ≤ 100)
    ∧ (0 ≤ (computeRisks state deviations baseline).cognitive
      ∧ (computeRisks state deviations baseline).cognitive ≤ 100)
    ∧ (0 ≤ (computeRisks state deviations baseline).loneliness
      ∧ (computeRisks state deviations baseline).loneliness ≤ 100)
    ∧ (0 ≤ (computeRisks state deviations baseline).overall
      ∧ (computeRisks state deviations baseline).overall ≤ 100) := by
  unfold computeRisks
  exact ⟨⟨clamp_nonneg _, clamp_le_hundred _⟩, ⟨clamp_nonneg _, clamp_le_hundred _⟩,
    ⟨clamp_nonneg _, clamp_le_hundred _⟩, ⟨clamp_nonneg _, clamp_le_hundred _⟩⟩

/-- C5: the fall score equals the clamp, applied once to the final sum, of
(100 - mobility) * 0.35 + restlessness * 0.20 + (18 if night else 0)
+ max 0 devMobility * 5 + max 0 devRestlessness * 3, plus, only when
wearables are enabled, max 0 (heartRate - 110) * 0.5 and
max 0 (92 - spO2) * 3; no individual term is clamped. -/
theorem computeRisks_fall_formula (state : CurrentState)
    (deviations : Deviations) (baseline : ResidentBaseline) :
    (computeRisks state deviations baseline).fall
      = clamp (fallSpec state deviations baseline) := by
  have hhr : (if state.heartRate > 110 then (state.heartRate - 110) * 0.5 else 0)
      = max 0 (state.heartRate - 110) * 0.5 := by
    split_ifs with h
    · rw [max_eq_right (by linarith)]
    · rw [max_eq_left (by linarith), zero_mul]
  have hsp : (if state.spO2 < 92 then (92 - state.spO2) * 3 else 0)
      = max 0 (92 - state.spO2) * 3 := by
    split_ifs with h
    · rw [max_eq_right (by linarith)]
    · rw [max_eq_left (by linarith), zero_mul]
  unfold computeRisks fallSpec
  rw [hhr, hsp]

/-- C3: selectIntervention implements the priority-ordered decision table
with first match winning: level 4 exactly when (overall band High and
wearables enabled and (heartRate > 120 or spO2 < 90)) or
recentHighCount >= 3; else 3 when fall band High or (overall band Medium and
staffLoad > 65); else 2 when fall band Medium, loneliness band Medium or
High, or cognitive band Medium; else 1. A level in 1..4 is always produced,
and recentHighCount = 3 forces level 4 whatever the other signals are. -/
theorem selectIntervention_decision_table (state : CurrentState)
    (risks : RiskScores) (recentHighCount : ℕ) :
    ((selectIntervention state risks recentHighCount).level =
      if (urgencyBand risks.overall = .High ∧ state.useWearables = true
            ∧ (state.heartRate > 120 ∨ state.spO2 < 90))
          ∨ 3 ≤ recentHighCount then 4
      else if urgencyBand risks.fall = .High
          ∨ (urgencyBand risks.overall = .Medium ∧ state.staffLoad > 65) then 3
      else if urgencyBand risks.fall = .Medium
          ∨ urgencyBand risks.loneliness = .Medium
          ∨ urgencyBand risks.loneliness = .High
          ∨ urgencyBand risks.cognitive = .Medium then 2
      else 1)
    ∧ ((selectIntervention state risks recentHighCount).level = 1
      ∨ (selectIntervention state risks recentHighCount).level = 2
      ∨ (selectIntervention state risks recentHighCount).level = 3
      ∨ (selectIntervention state risks recentHighCount).level = 4)
    ∧ (selectIntervention state risks 3).level = 4 := by
  have main : ∀ n : ℕ, (selectIntervention state risks n).level =
      (if (urgencyBand risks.overall = .High ∧ state.useWearables = true
            ∧ (state.heartRate > 120 ∨ state.spO2 < 90)) ∨ 3 ≤ n then 4
        else if urgencyBand risks.fall = .High
            ∨ (urgencyBand risks.overall = .Medium ∧ state.staffLoad > 65) then 3
        else if urgencyBand risks.fall = .Medium
            ∨ urgencyBand risks.loneliness = .Medium
            ∨ urgencyBand risks.loneliness = .High
            ∨ urgencyBand risks.cognitive = .Medium then 2
        else 1) := by
    intro n
    simp only [selectIntervention, Bool.and_eq_true, Bool.or_eq_true,
      decide_eq_true_eq, ge_iff_le, ite_self]
    split_ifs <;> rfl
  refine ⟨main recentHighCount, ?_, ?_⟩
  · rw [main recentHighCount]
    split_ifs <;> simp
  · rw [main 3, if_pos (Or.inr (le_refl 3))]

theorem strSlice_length_le (s : String) (n : ℕ) : (strSlice s n).length ≤ n := by
  show (List.asString (s.toList.take n)).length ≤ n
  have h : (List.asString (s.toList.take n)).length = (s.toList.take n).length := rfl
  rw [h, List.length_take]
  exact min_le_left _ _

/-- C7 counterexample: a syntactically malformed payload, modelled by the
failing outcome of the host JSON.parse, is propagated by parseLLMResponse as
an error, not converted into the safe default messages. -/
theorem parseLLMResponse_malformed_not_defaulted :
    parseLLMResponse (Except.error "SyntaxError: Unexpected token")
      = Except.error "SyntaxError: Unexpected token"
    ∧ parseLLMResponse (Except.error "SyntaxError: Unexpected token")
      ≠ Except.ok ⟨none, none, defaultExplanationText⟩ := by
  exact ⟨rfl, by simp [parseLLMResponse]⟩

/-- C7 amended: a payload whose JSON parse fails is propagated as an error
(the conversion to safe defaults applies only to field extraction); when the
parse succeeds, residentMessage is capped at 200 characters, staffMessage at
300, explanationText at 500, and a missing or non-string explanationText
yields the fixed default sentence, while missing or non-string messages
become null. -/
theorem parseLLMResponse_caps_and_defaults :
    (∀ e : String, parseLLMResponse (Except.error e) = Except.error e)
    ∧ (∀ (v : JValue) (m : LLMGeneratedMessages),
        parseLLMResponse (Except.ok v) = Except.ok m →
        (∀ r, m.residentMessage = some r → r.length ≤ 200)
        ∧ (∀ t, m.staffMessage = some t → t.length ≤ 300)
        ∧ m.explanationText.length ≤ 500
        ∧ ((∀ s, getField v "explanationText" ≠ some (.str s)) →
            m.explanationText = defaultExplanationText)) := by
  constructor
  · intro e; rfl
  · intro v m hm
    have hm' : m =
        { residentMessage :=
            match getField v "residentMessage" with
            | some (.str s) => some (strSlice s 200)
            | _ => none
          staffMessage :=
            match getField v "staffMessage" with
            | some (.str s) => some (strSlice s 300)
            | _ => none
          explanationText :=
            match getField v "explanationText" with
            | some (.str s) => strSlice s 500
            | _ => defaultExplanationText } := by
      have := hm
      unfold parseLLMResponse at this
      exact (Except.ok.injEq _ _).mp this.symm
    subst hm'
    refine ⟨?_, ?_, ?_, ?_⟩
    · intro r hr
      rcases hv : getField v "residentMessage" with _ | jv
      · simp [hv] at hr
      · cases jv <;> simp [hv] at hr
        exact hr ▸ strSlice_length_le _ _
    · intro t ht
      rcases hv : getField v "staffMessage" with _ | jv
      · simp [hv] at ht
      · cases jv <;> simp [hv] at ht
        exact ht ▸ strSlice_length_le _ _
    · rcases hv : getField v "explanationText" with _ | jv
      · simp [hv]; decide
      · cases jv <;> simp [hv] <;> first | decide | exact strSlice_length_le _ _
    · intro hs
      rcases hv : getField v "explanationText" with _ | jv
      · simp [hv]
      · cases jv <;> simp [hv]
        exact absurd hv (hs _)

/-- Witness for C7 amended: evaluation at a failing parse and at a parsed
object with a 2-character residentMessage and a numeric explanationText. -/
theorem parseLLMResponse_caps_and_defaults_witness :
    parseLLMResponse (Except.error "boom") = Except.error "boom"
    ∧ "hi".length ≤ 200 :=
  ⟨parseLLMResponse_caps_and_defaults.1 "boom",
    (parseLLMResponse_caps_and_defaults.2
      (.obj [("residentMessage", .str "hi"), ("explanationText", .num 5)])
      ⟨some "hi", none, defaultExplanationText⟩ rfl).1 "hi" rfl⟩

/-- C8: buildExplanation always returns a non-empty topFactors list of at
most 3 entries; when no checklist rule triggers it is exactly the default
factor; otherwise it is a take-3 prefix of a stable descending-by-weight
reordering of the triggered checklist (a permutation, sorted by weight
nonincreasing, preserving the original relative order of equal weights); and
on the all-nominal default state with the default baseline (whatever value
the host square root returns for the variances) it is exactly the default
factor with the Low-band narrative. -/
theorem buildExplanation_factors (state : CurrentState) (devs : Deviations)
    (risks : RiskScores) (baseline : ResidentBaseline) :
    ((buildExplanation state devs risks baseline).topFactors ≠ []
      ∧ (buildExplanation state devs risks baseline).topFactors.length ≤ 3)
    ∧ (factorChecklist state devs (isNightHour state.timeOfDay baseline) = [] →
        (buildExplanation state devs risks baseline).topFactors = [defaultFactor])
    ∧ (factorChecklist state devs (isNightHour state.timeOfDay baseline) ≠ [] →
        ∃ l : List Factor,
          l.Perm (factorChecklist state devs (isNightHour state.timeOfDay baseline))
          ∧ List.Pairwise (fun a b => b.weight ≤ a.weight) l
          ∧ (∀ w : ℚ, l.filter (fun f => decide (f.weight = w))
              = (factorChecklist state devs
                  (isNightHour state.timeOfDay baseline)).filter
                  (fun f => decide (f.weight = w)))
          ∧ (buildExplanation state devs risks baseline).topFactors = l.take 3)
    ∧ (∀ sqrtFn : ℚ → ℚ,
        buildExplanation defaultState
          (computeDeviations sqrtFn DEFAULT_BASELINE defaultState)
          (computeRisks defaultState
            (computeDeviations sqrtFn DEFAULT_BASELINE defaultState)
            DEFAULT_BASELINE)
          DEFAULT_BASELINE
        = { topFactors := [defaultFactor]
            narrative :=
              "The resident\x27s current state is within a comfortable range. "
                ++ "No significant deviations from their personal baseline have been detected." }) := by
  have htrans : ∀ a b c : Factor,
      weightGe a b = true → weightGe b c = true → weightGe a c = true := by
    intro a b c hab hbc
    simp only [weightGe, decide_eq_true_eq] at *
    exact le_trans hbc hab
  have htotal : ∀ a b : Factor, (weightGe a b || weightGe b a) = true := by
    intro a b
    simp only [weightGe, Bool.or_eq_true, decide_eq_true_eq]
    exact le_total b.weight a.weight
  have hbe : (buildExplanation state devs risks baseline).topFactors
      = ((if factorChecklist state devs (isNightHour state.timeOfDay baseline) = []
            then [defaultFactor]
            else factorChecklist state devs
              (isNightHour state.timeOfDay baseline)).mergeSort weightGe).take 3 := rfl
  have key : ∀ L : List Factor, L ≠ [] →
      ((L.mergeSort weightGe).take 3 ≠ []
        ∧ ((L.mergeSort weightGe).take 3).length ≤ 3) := by
    intro L hL
    constructor
    · apply List.ne_nil_of_length_pos
      rw [List.length_take, List.length_mergeSort]
      exact lt_min (by norm_num) (List.length_pos.mpr hL)
    · rw [List.length_take]
      exact min_le_left _ _
  refine ⟨?_, ?_, ?_, ?_⟩
  · rw [hbe]
    by_cases htr : factorChecklist state devs (isNightHour state.timeOfDay baseline) = []
    · rw [if_pos htr]
      exact key _ (by simp)
    · rw [if_neg htr]
      exact key _ htr
  · intro h
    rw [hbe, if_pos h, List.mergeSort_singleton]
    rfl
  · intro h
    refine ⟨(factorChecklist state devs
        (isNightHour state.timeOfDay baseline)).mergeSort weightGe,
      List.mergeSort_perm _ weightGe, ?_, ?_, by rw [hbe, if_neg h]⟩
    · exact List.Pairwise.imp
        (fun hab => by simpa [weightGe, decide_eq_true_eq] using hab)
        (List.sorted_mergeSort htrans htotal _)
    · intro w
      set trig := factorChecklist state devs (isNightHour state.timeOfDay baseline)
      set fp := fun f : Factor => decide (f.weight = w) with hfp
      have hsub0 : (trig.filter fp).Sublist trig := List.filter_sublist trig
      have hpw : (trig.filter fp).Pairwise (fun a b => weightGe a b = true) := by
        apply List.pairwise_of_forall_mem_list
        intro a ha b hb
        have haw : a.weight = w := by
          have := (List.mem_filter.mp ha).2
          simpa [hfp, decide_eq_true_eq] using this
        have hbw : b.weight = w := by
          have := (List.mem_filter.mp hb).2
          simpa [hfp, decide_eq_true_eq] using this
        simp only [weightGe, decide_eq_true_eq, haw, hbw]
        exact le_refl w
      have h1 : (trig.filter fp).Sublist (trig.mergeSort weightGe) :=
        List.sublist_mergeSort htrans htotal hpw hsub0
      have h2 : ((trig.mergeSort weightGe).filter fp).Perm (trig.filter fp) :=
        (List.mergeSort_perm trig weightGe).filter fp
      have h3 : ((trig.filter fp).filter fp) = trig.filter fp :=
        List.filter_eq_self.mpr (fun a ha => (List.mem_filter.mp ha).2)
      have h4 : (trig.filter fp).Sublist ((trig.mergeSort weightGe).filter fp) :=
        h3 ▸ (h1.filter fp)
      exact (h4.eq_of_length h2.length_eq.symm).symm
  · intro sqrtFn
    have hd : computeDeviations sqrtFn DEFAULT_BASELINE defaultState
        = ⟨0, 0, 0, 0⟩ := by
      simp [computeDeviations, DEFAULT_BASELINE, defaultState]
    rw [hd]
    have hfc : factorChecklist defaultState ⟨0, 0, 0, 0⟩
        (isNightHour defaultState.timeOfDay DEFAULT_BASELINE) = [] := by decide
    have hband : urgencyBand
        ((computeRisks defaultState ⟨0, 0, 0, 0⟩ DEFAULT_BASELINE).overall)
        = .Low := by decide
    simp [buildExplanation, hfc, hband, List.mergeSort_singleton]

/-- Witness for C8: the no-rule-triggered hypothesis discharged at the
default state with zero deviations. -/
theorem buildExplanation_factors_witness :
    (buildExplanation defaultState ⟨0, 0, 0, 0⟩ ⟨0, 0, 0, 0⟩
      DEFAULT_BASELINE).topFactors = [defaultFactor] :=
  (buildExplanation_factors defaultState ⟨0, 0, 0, 0⟩ ⟨0, 0, 0, 0⟩
    DEFAULT_BASELINE).2.1 (by decide)

theorem aborted_mem_ctrlStep (c : Ctrl) (e : Ev) {t : ℕ}
    (h : t ∈ c.aborted) : t ∈ ((ctrlStep c e).1).aborted := by
  cases e with
  | request => simpa [ctrlStep, clearTimer] using h
  | forceRequest =>
      simp only [ctrlStep, executeStart, clearTimer, abortInflight]
      cases c.inflight <;> simp [h]
  | timerFire tid =>
      simp only [ctrlStep]
      split
      · simp only [executeStart, abortInflight]
        cases c.inflight <;> simp [h]
      · exact h
  | stopAll =>
      simp only [ctrlStep, clearTimer, abortInflight]
      cases c.inflight <;> simp [h]
  | completeOk tok =>
      simp only [ctrlStep]
      split <;> simp [h]
  | completeErr tok ae =>
      simp only [ctrlStep]
      split <;> simp [h]

theorem aborted_mem_runCtrl (es : List Ev) (c : Ctrl) {t : ℕ}
    (h : t ∈ c.aborted) : t ∈ (runCtrl c es).aborted := by
  induction es generalizing c with
  | nil => exact h
  | cons e es ih => exact ih _ (aborted_mem_ctrlStep c e h)

theorem stopAll_state (c : Ctrl) :
    (ctrlStep c .stopAll).1.timer = none
    ∧ (ctrlStep c .stopAll).1.inflight = none
    ∧ (ctrlStep c .stopAll).1.status = .idle := by
  simp only [ctrlStep, clearTimer, abortInflight]
  cases c.inflight <;> simp

theorem stopAll_aborts (c : Ctrl) {t : ℕ}
    (h : c.inflight = some t ∨ t ∈ c.aborted) :
    t ∈ (ctrlStep c .stopAll).1.aborted := by
  simp only [ctrlStep, clearTimer, abortInflight]
  rcases h with h | h
  · rw [h]; simp
  · cases c.inflight <;> simp [h]

/-- C1: every start of a network call (a fired request timer, a
forceRequest, or the implicit cancel inside execute) first aborts any
predecessor token; and two requests inside one debounce window produce
exactly one network call: the second request replaces the pending timer of
the first, whose timer identity can no longer fire, while the live timer
fires exactly once. -/
theorem llmController_single_inflight :
    (∀ (c : Ctrl) (e : Ev) (t : ℕ),
      (ctrlStep c e).2.started = true → c.inflight = some t →
        t ∈ ((ctrlStep c e).1).aborted)
    ∧ (∀ (c : Ctrl) (t : ℕ),
      traceStarts c [.request, .request, .timerFire t] ≤ 1
      ∧ traceStarts c [.request, .request, .timerFire (c.fresh + 1)] = 1
      ∧ traceStarts c [.request, .request, .timerFire c.fresh] = 0) := by
  constructor
  · intro c e t hs hi
    cases e with
    | request => simp [ctrlStep] at hs
    | forceRequest =>
        simp [ctrlStep, executeStart, clearTimer, abortInflight, hi]
    | timerFire tid =>
        simp only [ctrlStep] at hs ⊢
        split at hs
        · next hguard =>
            rw [if_pos hguard]
            simp [executeStart, clearTimer, abortInflight, hi]
        · simp at hs
    | stopAll => simp [ctrlStep] at hs
    | completeOk tok =>
        simp only [ctrlStep] at hs
        split at hs <;> simp at hs
    | completeErr tok ae =>
        simp only [ctrlStep] at hs
        split at hs <;> simp at hs
  · intro c t
    have hrun : ∀ u : ℕ,
        traceStarts c [.request, .request, .timerFire u]
          = if c.fresh + 1 = u then 1 else 0 := by
      intro u
      by_cases h : c.fresh + 1 = u
      · rw [if_pos h]
        simp [traceStarts, ctrlStep, clearTimer, h]
      · rw [if_neg h]
        simp [traceStarts, ctrlStep, clearTimer, h]
    refine ⟨?_, ?_, ?_⟩
    · rw [hrun t]; split <;> simp
    · rw [hrun (c.fresh + 1)]; simp
    · rw [hrun c.fresh]; simp

/-- Witness for C1: a forceRequest on a controller with token 1 in flight
aborts token 1, and the double-request trace fires one call. -/
theorem llmController_single_inflight_witness :
    1 ∈ ((ctrlStep (⟨none, some 1, [], .generating, 0, 2⟩ : Ctrl)
        .forceRequest).1).aborted
    ∧ traceStarts (⟨none, none, [], .idle, 0, 0⟩ : Ctrl)
        [.request, .request, .timerFire 1] = 1 :=
  ⟨llmController_single_inflight.1 _ .forceRequest 1 rfl rfl,
    (llmController_single_inflight.2 ⟨none, none, [], .idle, 0, 0⟩ 0).2.1⟩

/-- C2: after stopAll the pending timer and the in-flight token are both
cancelled and the status is idle; the timer of any earlier request can no
longer start a call; and for any token of a previously issued call, however
the controller is driven afterwards, a late completion of that call (success
or failure) delivers neither onResult nor onError. -/
theorem llmController_stopAll_silences (c : Ctrl) :
    ((ctrlStep c .stopAll).1.timer = none
      ∧ (ctrlStep c .stopAll).1.inflight = none
      ∧ (ctrlStep c .stopAll).1.status = .idle)
    ∧ (∀ tid : ℕ,
        (ctrlStep (ctrlStep c .stopAll).1 (.timerFire tid)).2.started = false)
    ∧ (∀ t : ℕ, c.inflight = some t ∨ t ∈ c.aborted →
        ∀ es : List Ev,
          (ctrlStep (runCtrl (ctrlStep c .stopAll).1 es)
            (.completeOk t)).2.resultDelivered = false
          ∧ ∀ ae : Bool,
            (ctrlStep (runCtrl (ctrlStep c .stopAll).1 es)
              (.completeErr t ae)).2.errorDelivered = false) := by
  refine ⟨stopAll_state c, ?_, ?_⟩
  · intro tid
    have ht : (ctrlStep c .stopAll).1.timer = none := (stopAll_state c).1
    generalize hS : (ctrlStep c .stopAll).1 = S at ht ⊢
    simp [ctrlStep, ht]
  · intro t hmem es
    have h1 : t ∈ (runCtrl (ctrlStep c .stopAll).1 es).aborted :=
      aborted_mem_runCtrl es _ (stopAll_aborts c hmem)
    generalize hR : runCtrl (ctrlStep c .stopAll).1 es = R at h1 ⊢
    constructor
    · simp [ctrlStep, h1]
    · intro ae; simp [ctrlStep, h1]

/-- Witness for C2: a stopped controller with token 3 in flight never
delivers a late completion of token 3, even after further requests. -/
theorem llmController_stopAll_silences_witness :
    (ctrlStep (runCtrl
        (ctrlStep (⟨some 7, some 3, [], .generating, 5, 8⟩ : Ctrl) .stopAll).1
        [.request, .timerFire 8])
      (.completeOk 3)).2.resultDelivered = false :=
  ((llmController_stopAll_silences ⟨some 7, some 3, [], .generating, 5, 8⟩).2.2
    3 (Or.inl rfl) [.request, .timerFire 8]).1

/-- C6: when no simulation is running and enrichment is available, an
evaluation at level at least 2 whose signature equals the stored one leaves
the gate and the controller untouched (zero calls); one whose signature
differs stores the new signature and performs exactly one controller
request; and an evaluation at level below 2 stops controller work (pending
timer and in-flight call cancelled) and clears the cached enrichment,
issuing no call. -/
theorem changeGate_signature (g : GateState) (ctrl : Ctrl)
    (i : InterventionOutput) (r : RiskScores) (e : ExplanationOutput)
    (evs : List TimelineEvent) :
    g.simRunning = false → isLLMAvailable g.llmConfig = true →
    ((2 ≤ i.level →
      (computeContextSignature i r e evs = g.prevSignature →
        maybeRequestLLM g ctrl i r e evs = (g, ctrl))
      ∧ (computeContextSignature i r e evs ≠ g.prevSignature →
        maybeRequestLLM g ctrl i r e evs =
          ({ g with prevSignature := computeContextSignature i r e evs },
            (ctrlStep ctrl .request).1)))
    ∧ (i.level < 2 →
      maybeRequestLLM g ctrl i r e evs =
        ({ g with lastLLMMessages := none }, (ctrlStep ctrl .stopAll).1)
      ∧ (ctrlStep ctrl .stopAll).1.timer = none
      ∧ (ctrlStep ctrl .stopAll).1.inflight = none)) := by
  intro hsim havail
  constructor
  · intro hlvl
    have hnotlt : ¬ i.level < 2 := Nat.not_lt.mpr hlvl
    constructor
    · intro hsig
      simp [maybeRequestLLM, hsim, havail, hnotlt, hsig]
    · intro hsig
      simp [maybeRequestLLM, hsim, havail, hnotlt, hsig]
  · intro hlvl
    refine ⟨?_, (stopAll_state ctrl).1, (stopAll_state ctrl).2.1⟩
    simp [maybeRequestLLM, hsim, havail, hlvl]

/-- Witness for C6: a concrete gate state with a matching stored signature
issues no call. -/
theorem changeGate_signature_witness :
    maybeRequestLLM
      (⟨false, ⟨"k", "https://api.openai.com/v1", "gpt-4o-mini", true⟩,
        "2|Medium||none", none⟩ : GateState)
      (⟨none, none, [], .idle, 0, 0⟩ : Ctrl)
      (⟨2, "Gentle Prompt", none, none, "cue"⟩ : InterventionOutput)
      (⟨50, 50, 50, 50⟩ : RiskScores)
      (⟨[], ""⟩ : ExplanationOutput) []
    = (⟨false, ⟨"k", "https://api.openai.com/v1", "gpt-4o-mini", true⟩,
        "2|Medium||none", none⟩, ⟨none, none, [], .idle, 0, 0⟩) :=
  ((changeGate_signature _ _ _ _ _ _ rfl (by decide)).1 (by decide)).1 (by decide)

/-- C10: the level-below-2 branch clears the cached enrichment and leaves
the stored signature unchanged, so a later evaluation back at level at least
2 with the same signature as before the dip issues no new call and the
cleared enrichment stays cleared; a changed signature stores the new one,
and a forceRefresh resets the stored signature to the empty string. -/
theorem changeGate_lowLevel_frame (g : GateState) (ctrl : Ctrl)
    (iLow iHigh : InterventionOutput) (r r2 : RiskScores)
    (e e2 : ExplanationOutput) (evs evs2 : List TimelineEvent) :
    g.simRunning = false → isLLMAvailable g.llmConfig = true →
    iLow.level < 2 → 2 ≤ iHigh.level →
    ((maybeRequestLLM g ctrl iLow r e evs).1.prevSignature = g.prevSignature
      ∧ (maybeRequestLLM g ctrl iLow r e evs).1.lastLLMMessages = none)
    ∧ (computeContextSignature iHigh r2 e2 evs2 = g.prevSignature →
        maybeRequestLLM (maybeRequestLLM g ctrl iLow r e evs).1
            (maybeRequestLLM g ctrl iLow r e evs).2 iHigh r2 e2 evs2
          = ((maybeRequestLLM g ctrl iLow r e evs).1,
              (maybeRequestLLM g ctrl iLow r e evs).2)
        ∧ (maybeRequestLLM (maybeRequestLLM g ctrl iLow r e evs).1
            (maybeRequestLLM g ctrl iLow r e evs).2
            iHigh r2 e2 evs2).1.lastLLMMessages = none)
    ∧ (computeContextSignature iHigh r2 e2 evs2 ≠ g.prevSignature →
        (maybeRequestLLM (maybeRequestLLM g ctrl iLow r e evs).1
            (maybeRequestLLM g ctrl iLow r e evs).2
            iHigh r2 e2 evs2).1.prevSignature
          = computeContextSignature iHigh r2 e2 evs2)
    ∧ (∀ (ri : RiskScores) (ei : ExplanationOutput),
        (forceRefreshLLM (maybeRequestLLM g ctrl iLow r e evs).1
          (maybeRequestLLM g ctrl iLow r e evs).2
          (some iHigh) (some ri) (some ei)).1.prevSignature = "") := by
  intro hsim havail hlow hhigh
  have hnotlt : ¬ iHigh.level < 2 := Nat.not_lt.mpr hhigh
  have hdip : maybeRequestLLM g ctrl iLow r e evs
      = ({ g with lastLLMMessages := none }, (ctrlStep ctrl .stopAll).1) := by
    simp [maybeRequestLLM, hsim, havail, hlow]
  rw [hdip]
  refine ⟨⟨rfl, rfl⟩, ?_, ?_, ?_⟩
  · intro hsig
    constructor
    · simp [maybeRequestLLM, hsim, havail, hnotlt, hsig]
    · simp [maybeRequestLLM, hsim, havail, hnotlt, hsig]
  · intro hsig
    simp [maybeRequestLLM, hsim, havail, hnotlt, hsig]
  · intro ri ei
    simp [forceRefreshLLM, havail, hnotlt]

/-- Witness for C10: a dip to level 1 followed by a return to level 2 with
the unchanged signature issues no call and keeps the enrichment cleared. -/
theorem changeGate_lowLevel_frame_witness :
    (maybeRequestLLM
      (maybeRequestLLM
        (⟨false, ⟨"k", "u", "m", true⟩, "2|Medium||none",
          some ⟨none, none, "cached"⟩⟩ : GateState)
        (⟨none, none, [], .idle, 0, 0⟩ : Ctrl)
        (⟨1, "Ambient Cue", none, none, "cue"⟩ : InterventionOutput)
        (⟨10, 10, 10, 10⟩ : RiskScores) (⟨[], ""⟩ : ExplanationOutput) []).1
      (maybeRequestLLM
        (⟨false, ⟨"k", "u", "m", true⟩, "2|Medium||none",
          some ⟨none, none, "cached"⟩⟩ : GateState)
        (⟨none, none, [], .idle, 0, 0⟩ : Ctrl)
        (⟨1, "Ambient Cue", none, none, "cue"⟩ : InterventionOutput)
        (⟨10, 10, 10, 10⟩ : RiskScores) (⟨[], ""⟩ : ExplanationOutput) []).2
      (⟨2, "Gentle Prompt", none, none, "cue"⟩ : InterventionOutput)
      (⟨50, 50, 50, 50⟩ : RiskScores) (⟨[], ""⟩ : ExplanationOutput) []).1.lastLLMMessages
    = none :=
  (((changeGate_lowLevel_frame
      (⟨false, ⟨"k", "u", "m", true⟩, "2|Medium||none",
        some ⟨none, none, "cached"⟩⟩ : GateState)
      (⟨none, none, [], .idle, 0, 0⟩ : Ctrl)
      (⟨1, "Ambient Cue", none, none, "cue"⟩ : InterventionOutput)
      (⟨2, "Gentle Prompt", none, none, "cue"⟩ : InterventionOutput)
      (⟨10, 10, 10, 10⟩ : RiskScores) (⟨50, 50, 50, 50⟩ : RiskScores)
      (⟨[], ""⟩ : ExplanationOutput) (⟨[], ""⟩ : ExplanationOutput) [] []
      rfl (by decide) (by decide) (by decide)).2.1 (by decide)).2)

end ClaimProofs

end Aura
